import Mathlib

/-!
Shallow embedding of the EcoAgent demo-mode aggregation pipeline: the
frontend simulation-data module (mock room / building / campus generation
and rollups), the occupancy-level derivation of the room list view, the
recommendation post-filters of the UI components, and a spec-modelled
Budget-Gated Recommender (whose backend implementation is not among the
frontend sources).

Modelling conventions: JavaScript numbers are rationals, `Math.floor` is
`Int.floor`, `parseFloat(x.toFixed(k))` is decimal rounding to k places,
and every `Math.random()` draw is an explicit rational parameter
(in `[0, 1)` when a theorem needs that bound). Optional fields of the
`envParams` object are `Option` values; JavaScript truthiness of those
fields is modelled case by case at each use site.
-/

namespace EcoAgent

/-- Rounding to 2 decimal places, modelling `parseFloat(x.toFixed(2))`. -/
def round2 (q : ℚ) : ℚ := (round (q * 100) : ℚ) / 100

/-- Rounding to 1 decimal place, modelling `parseFloat(x.toFixed(1))`. -/
def round1 (q : ℚ) : ℚ := (round (q * 10) : ℚ) / 10

/-- Optional environmental parameters: the optional fields of the
`envParams` object threaded through the mock generators. -/
structure EnvParams where
  avg_occupancy : Option ℤ
  lights_on : Option Bool
  ac_on : Option Bool
  fans_on : Option Bool
  computers_count : Option ℤ
  outdoor_temperature : Option ℚ
deriving Repr, DecidableEq

/-- JavaScript `a || b` for a possibly-missing integer field `a`:
`undefined` and `0` are falsy, so both fall through to `b`. -/
def orElseInt (a : Option ℤ) (b : ℤ) : ℤ :=
  match a with
  | some v => if v = 0 then b else v
  | none => b

/-- The `Math.random()` draws consumed by one `generateMockRoomData` call,
in source order. -/
structure RoomRand where
  capacityR : ℚ
  avgOccR : ℚ
  deltaR : ℚ
  jitterR : ℚ
  waterR : ℚ
  maintR : ℚ
  savingsR : ℚ
deriving Repr, DecidableEq

/-- The record returned by `generateMockRoomData`. -/
structure RoomData where
  room_id : String
  current_occupancy : ℤ
  capacity : ℤ
  occupancy_level : String
  estimated_energy_kw : ℚ
  estimated_water_lph : ℚ
  estimated_co2_ppm : ℤ
  recommendations : List String
  anomalies : List String
  savings_potential : ℚ
deriving Repr, DecidableEq

/-- Time-of-day occupancy factor (`getTimeBasedOccupancy`), as a function of
the current hour. -/
def getTimeBasedOccupancy (hour : ℕ) : ℚ :=
  if 9 ≤ hour ∧ hour ≤ 17 then 0.7
  else if 18 ≤ hour ∧ hour ≤ 22 then 0.4
  else 0.1

/-- Per-building base energy table of `generateMockRoomData`
(`{lib: 2.5, sci: 8.0, eng: 6.5, dorm: 1.5, cafe: 12.0}[buildingId] || 3.0`). -/
def baseEnergy (buildingId : String) : ℚ :=
  if buildingId = "lib" then 2.5
  else if buildingId = "sci" then 8.0
  else if buildingId = "eng" then 6.5
  else if buildingId = "dorm" then 1.5
  else if buildingId = "cafe" then 12.0
  else 3.0

/-- The occupancy-level classification inlined in `generateMockRoomData`:
`occupancyPct > 70 ? "high" : occupancyPct > 30 ? "medium" : "low"` (strict). -/
def mockOccupancyLevel (occupancyPct : ℚ) : String :=
  if occupancyPct > 70 then "high" else if occupancyPct > 30 then "medium" else "low"

/-- The equipment-driven energy multiplier of `generateMockRoomData`:
starts at `0.3 + occupancyPct / 100 * 0.7` and is scaled by each equipment
condition in source order. -/
def energyMultiplier (env : EnvParams) (occupancyPct : ℚ) : ℚ :=
  let m0 := 0.3 + occupancyPct / 100 * 0.7
  let m1 := if env.lights_on = some false then m0 * 0.7 else m0
  let m2 := if env.ac_on = some false then m1 * 0.6 else m1
  let m3 := if env.fans_on = some true then m2 * 1.1 else m2
  match env.computers_count with
  | some c => if 0 < c then m3 * (1 + (c : ℚ) * 0.05) else m3
  | none => m3

/-- The recommendation strings pushed by `generateMockRoomData` before the
`slice(0, 3)` truncation. -/
def mockRoomRecommendations (env : EnvParams) (occupancyPct energy maintR : ℚ) :
    List String :=
  (if occupancyPct < 20 ∧ energy > 2 then
    ["Reduce HVAC - low occupancy", "Auto-dim lights to 40%"] else []) ++
  (if occupancyPct > 80 then
    ["Increase ventilation", "Monitor temperature closely"] else []) ++
  (if (match env.outdoor_temperature with | some t => decide (t > 35) | none => false) &&
      !(env.ac_on == some true) then
    ["⚠️ High outdoor temp - consider enabling AC"] else []) ++
  (if (match env.computers_count with | some c => decide (c > 10) | none => false) then
    ["High computer usage - monitor power load"] else []) ++
  (if maintR > 0.7 then ["Schedule maintenance check"] else [])

/-- Model of `generateMockRoomData(roomId, buildingId, envParams)`; the
`Math.random()` draws and the wall-clock hour are explicit arguments. -/
def generateMockRoomData (roomId buildingId : String) (env : EnvParams)
    (rnd : RoomRand) (hour : ℕ) : RoomData :=
  let occupancyFactor := getTimeBasedOccupancy hour
  let capacity : ℤ := ⌊rnd.capacityR * 40⌋ + 20
  let avgOccupancy : ℤ :=
    orElseInt env.avg_occupancy
      ⌊(capacity : ℚ) * occupancyFactor * (0.5 + rnd.avgOccR * 0.5)⌋
  let occupancy : ℤ := min (avgOccupancy + ⌊rnd.deltaR * 10 - 5⌋) capacity
  let occupancyPct : ℚ := (occupancy : ℚ) / (capacity : ℚ) * 100
  let energy : ℚ :=
    baseEnergy buildingId * energyMultiplier env occupancyPct *
      (0.8 + rnd.jitterR * 0.4)
  { room_id := roomId
    current_occupancy := occupancy
    capacity := capacity
    occupancy_level := mockOccupancyLevel occupancyPct
    estimated_energy_kw := round2 energy
    estimated_water_lph := round1 (rnd.waterR * 5)
    estimated_co2_ppm := ⌊400 + occupancyPct * 4⌋
    recommendations := (mockRoomRecommendations env occupancyPct energy rnd.maintR).take 3
    anomalies := if occupancy = 0 ∧ energy > 2 then
      ["Equipment running with no occupants"] else []
    savings_potential := round1 (rnd.savingsR * 30 + 10) }

/-- Building-name table (`buildingNames`), with the `buildingId.toUpperCase()`
fallback. -/
def buildingNames (buildingId : String) : String :=
  if buildingId = "lib" then "Central Library"
  else if buildingId = "sci" then "Science Hall"
  else if buildingId = "eng" then "Engineering Building"
  else if buildingId = "dorm" then "Student Dormitory"
  else if buildingId = "cafe" then "Student Center"
  else buildingId.map Char.toUpper

/-- The zero-padded room-number formatting `String(i).padStart(3, ...)`. -/
def padStart3 (i : ℕ) : String :=
  if i < 10 then "00" ++ toString i
  else if i < 100 then "0" ++ toString i
  else toString i

/-- The record returned by `generateMockBuildingData`. The two fields built
from fresh random strings and a fresh random draw (the building-level
`recommendations` template and `savings_potential`) are independent of the
rooms and are omitted; no claim concerns them. -/
structure BuildingData where
  building_id : String
  building_name : String
  total_rooms : ℕ
  total_energy_kw : ℚ
  total_occupancy : ℤ
  total_capacity : ℤ
  occupancy_rate : ℚ
  avg_energy_per_room : ℚ
  room_states : List RoomData
deriving Repr, DecidableEq

/-- The aggregation half of `generateMockBuildingData`: the reductions over
`Object.values(rooms)` and the assembled building record. -/
def buildingRollup (buildingId : String) (rooms : List RoomData) : BuildingData :=
  let totalEnergy : ℚ := rooms.foldl (fun s r => s + r.estimated_energy_kw) 0
  let totalOccupancy : ℤ := rooms.foldl (fun s r => s + r.current_occupancy) 0
  let totalCapacity : ℤ := rooms.foldl (fun s r => s + r.capacity) 0
  let occupancyRate : ℚ :=
    if totalCapacity > 0 then (totalOccupancy : ℚ) / (totalCapacity : ℚ) * 100 else 0
  { building_id := buildingId
    building_name := buildingNames buildingId
    total_rooms := rooms.length
    total_energy_kw := round2 totalEnergy
    total_occupancy := totalOccupancy
    total_capacity := totalCapacity
    occupancy_rate := round1 occupancyRate
    avg_energy_per_room := round2 (totalEnergy / (rooms.length : ℚ))
    room_states := rooms }

/-- Model of `generateMockBuildingData(buildingId, envParams)`: one room per
random-draw record (the source draws `numRooms` in 8..15 and loops), each
room built by `generateMockRoomData` with the shared `envParams`, then the
rollup. -/
def generateMockBuildingData (buildingId : String) (env : EnvParams)
    (rnds : List RoomRand) (hour : ℕ) : BuildingData :=
  let rooms := (List.range rnds.length).zip rnds |>.map fun p =>
    generateMockRoomData (buildingId ++ "-" ++ padStart3 (p.1 + 1)) buildingId env p.2 hour
  buildingRollup buildingId rooms

/-- An entry of the `critical_buildings` list of `generateMockCampusAnalysis`. -/
structure CriticalBuilding where
  building_id : String
  building_name : String
  energy_kw : ℚ
  occupancy_rate : ℚ
  reason : String
deriving Repr, DecidableEq

/-- The `campus_metrics` block of `generateMockCampusAnalysis`, without the
fresh random `potential_savings_percent` draw (no claim concerns it). -/
structure CampusMetrics where
  total_energy_kw : ℚ
  total_water_lph : ℚ
  total_occupancy : ℤ
  total_capacity : ℤ
  total_buildings : ℕ
  total_rooms : ℕ
  occupancy_rate : ℚ
  avg_occupancy_rate : ℚ
  estimated_cost_per_hour : ℚ
deriving Repr, DecidableEq

/-- The campus record returned by `generateMockCampusAnalysis`. -/
structure CampusData where
  campus_metrics : CampusMetrics
  building_states : List BuildingData
  critical_buildings : List CriticalBuilding
deriving Repr, DecidableEq

/-- Model of `generateMockCampusAnalysis(envParams)`: the reductions over
`Object.values(buildings)` and the assembled campus record. The buildings
are passed in (the source builds exactly one per id in
`[lib, sci, eng, dorm, cafe]` via `generateMockBuildingData`, so the
divisor `buildingIds.length` is the length of that list); the campus water
draw `Math.random()` is the explicit argument `waterR`. -/
def generateMockCampusAnalysis (buildings : List BuildingData) (waterR : ℚ) :
    CampusData :=
  let totalEnergy : ℚ := buildings.foldl (fun s b => s + b.total_energy_kw) 0
  let totalOccupancy : ℤ := buildings.foldl (fun s b => s + b.total_occupancy) 0
  let totalCapacity : ℤ := buildings.foldl (fun s b => s + b.total_capacity) 0
  let totalWater := round1 (waterR * 150 + 100)
  let avgOccupancyRate :=
    buildings.foldl (fun s b => s + b.occupancy_rate) 0 / (buildings.length : ℚ)
  let criticalBuildings :=
    (buildings.filter fun b => b.total_energy_kw > 50).map fun b =>
      { building_id := b.building_id
        building_name := b.building_name
        energy_kw := b.total_energy_kw
        occupancy_rate := b.occupancy_rate
        reason := "High energy consumption" : CriticalBuilding }
  { campus_metrics :=
      { total_energy_kw := round2 totalEnergy
        total_water_lph := totalWater
        total_occupancy := totalOccupancy
        total_capacity := totalCapacity
        total_buildings := buildings.length
        total_rooms := buildings.foldl (fun s b => s + b.total_rooms) 0
        occupancy_rate := round1 avgOccupancyRate
        avg_occupancy_rate := round1 avgOccupancyRate
        estimated_cost_per_hour := round2 (totalEnergy * 0.12 + totalWater * 0.002) }
    building_states := buildings
    critical_buildings := criticalBuildings }

/-- The `getOccupancyLevel(occupancy, capacity)` helper of the room list
view: "unknown" on falsy capacity, then `percentage >= 70` / `>= 30`
thresholds. -/
def getOccupancyLevel (occupancy capacity : ℚ) : String :=
  if capacity = 0 then "unknown"
  else
    let percentage := occupancy / capacity * 100
    if percentage ≥ 70 then "high"
    else if percentage ≥ 30 then "medium"
    else "low"

/-- Character-list map underlying `toLowerCase`. -/
def lowerChars : List Char → List Char
  | [] => []
  | c :: cs => Char.toLower c :: lowerChars cs

/-- JavaScript `String.prototype.toLowerCase()` (ASCII, which covers every
needle the filters test). -/
def toLowerCase (s : String) : String := String.mk (lowerChars s.data)

/-- Character-list helper: the needle occurs at the head of the haystack. -/
def charsStartWith : List Char → List Char → Bool
  | [], _ => true
  | _ :: _, [] => false
  | a :: as, b :: bs => a == b && charsStartWith as bs

/-- Character-list helper: the needle occurs somewhere in the haystack. -/
def charsContain (needle : List Char) : List Char → Bool
  | [] => charsStartWith needle []
  | b :: bs => charsStartWith needle (b :: bs) || charsContain needle bs

/-- JavaScript `hay.includes(needle)`. -/
def includesStr (hay needle : String) : Bool := charsContain needle.data hay.data

/-- Length of `s.trim()`: characters remaining after stripping leading and
trailing whitespace. -/
def trimmedLength (s : String) : ℕ :=
  ((s.data.dropWhile Char.isWhitespace).reverse.dropWhile Char.isWhitespace).length

/-- The recommendation post-filter predicate shared by the room detail view
and `BuildingCard`: keep `rec` iff its lowercase text contains neither
"no immediate" nor "operating efficiently" and `rec.trim().length > 10`. -/
def keepRecommendation (rec : String) : Bool :=
  let text := toLowerCase rec
  !(includesStr text "no immediate") &&
  !(includesStr text "operating efficiently") &&
  decide (10 < trimmedLength rec)

/-- The stricter post-filter predicate of `RecommendationPanel`: additionally
drops any string whose lowercase text contains "monitor", and tests the
longer needle "no immediate actions". -/
def keepRecommendationPanel (rec : String) : Bool :=
  let text := toLowerCase rec
  !(includesStr text "no immediate actions") &&
  !(includesStr text "operating efficiently") &&
  !(includesStr text "monitor") &&
  decide (10 < trimmedLength rec)

/-- The full `RecommendationPanel` pipeline on the `recommendations` prop:
`filter` then `slice(0, 5)`. -/
def filterRecommendationsPanel (recs : List String) : List String :=
  (recs.filter keepRecommendationPanel).take 5

/-- The budget level of an analysis request. -/
inductive BudgetLevel
  | low
  | medium
  | high
deriving Repr, DecidableEq

/-- Modelled from the spec: the backend Budget-Gated Recommender is not among
the frontend sources, so its call-count table is taken from the spec — a
fixed maximum number of external recommendation calls per analysis run per
budget level, low mapping to the small fixed count 3 taken from the spec
budget-exhaustion scenario, medium to a larger count and high to the
largest. -/
def budget_to_call_count : BudgetLevel → ℕ
  | .low => 3
  | .medium => 10
  | .high => 30

/-- Modelled from the spec: the Recommender loop over entities already in
priority order. While tokens remain, each entity gets one attempted external
call (`call i = none` is a failed call: it still consumes a token and yields
the empty list); entities reached after exhaustion get the empty list with
no attempted call. Each result entry is (entity, recommendations,
call-attempted flag). -/
def recommenderLoop (call : ℕ → Option (List String)) :
    ℕ → ℕ → List String → List (String × List String × Bool)
  | _, _, [] => []
  | 0, idx, e :: rest => (e, [], false) :: recommenderLoop call 0 idx rest
  | t + 1, idx, e :: rest =>
      (e, (call idx).getD [], true) :: recommenderLoop call t (idx + 1) rest

/-- Modelled from the spec: one Recommender run at a budget level. -/
def runRecommender (level : BudgetLevel) (call : ℕ → Option (List String))
    (entities : List String) : List (String × List String × Bool) :=
  recommenderLoop call (budget_to_call_count level) 0 entities

/-- Number of external calls attempted during a Recommender run. -/
def attemptedCalls (res : List (String × List String × Bool)) : ℕ :=
  (res.filter fun p => p.2.2).length

/-! Helper lemmas. -/

/-- Accumulating a mapped value with `foldl` (the shape of the source
`reduce((sum, r) => sum + f(r), 0)`) equals the initial value plus the sum of
the mapped list. -/
lemma foldl_add_eq {α M : Type*} [AddCommMonoid M] (g : α → M) :
    ∀ (l : List α) (s : M), l.foldl (fun a r => a + g r) s = s + (l.map g).sum := by
  intro l
  induction l with
  | nil => intro s; simp
  | cons x xs ih =>
      intro s
      simp only [List.foldl_cons, List.map_cons, List.sum_cons, ih, add_assoc]

/-- Evaluation of an integer floor of a rational from bounds. -/
lemma int_floor_eq {q : ℚ} {n : ℤ} (h₁ : (n : ℚ) ≤ q) (h₂ : q < n + 1) : ⌊q⌋ = n :=
  Int.floor_eq_iff.mpr ⟨h₁, h₂⟩

/-- Evaluation of `round` on a rational from bounds on `q + 1/2`. -/
lemma round_rat_eq {q : ℚ} {n : ℤ} (h₁ : (n : ℚ) ≤ q + 1 / 2)
    (h₂ : q + 1 / 2 < n + 1) : round q = n := by
  rw [round_eq]; exact int_floor_eq h₁ h₂

/-- Evaluation of `round1` from bounds. -/
lemma round1_eq (q : ℚ) (n : ℤ) (h₁ : (n : ℚ) ≤ q * 10 + 1 / 2)
    (h₂ : q * 10 + 1 / 2 < n + 1) : round1 q = (n : ℚ) / 10 := by
  rw [round1, round_rat_eq h₁ h₂]

/-- Evaluation of `round2` from bounds. -/
lemma round2_eq (q : ℚ) (n : ℤ) (h₁ : (n : ℚ) ≤ q * 100 + 1 / 2)
    (h₂ : q * 100 + 1 / 2 < n + 1) : round2 q = (n : ℚ) / 100 := by
  rw [round2, round_rat_eq h₁ h₂]

/-- Attempted calls of a Recommender loop: the token budget caps the entity
count. -/
lemma attemptedCalls_recommenderLoop (call : ℕ → Option (List String)) :
    ∀ (es : List String) (t idx : ℕ),
      attemptedCalls (recommenderLoop call t idx es) = min t es.length := by
  intro es
  induction es with
  | nil => intro t idx; simp [recommenderLoop, attemptedCalls]
  | cons e rest ih =>
      intro t idx
      cases t with
      | zero => simp [recommenderLoop, attemptedCalls, List.filter] at ih ⊢; simpa using ih 0 idx
      | succ t' =>
          simp only [recommenderLoop, attemptedCalls, List.filter, List.length_cons] at ih ⊢
          rw [show (min (t' + 1) (rest.length + 1)) = min t' rest.length + 1 from
            Nat.succ_min_succ t' rest.length]
          simpa using ih t' (idx + 1)

/-- Entities whose call was not attempted received the empty recommendation
list. -/
lemma recommenderLoop_unattempted_empty (call : ℕ → Option (List String)) :
    ∀ (es : List String) (t idx : ℕ),
      ∀ p ∈ recommenderLoop call t idx es, p.2.2 = false → p.2.1 = [] := by
  intro es
  induction es with
  | nil => intro t idx p hp; simp [recommenderLoop] at hp
  | cons e rest ih =>
      intro t idx p hp hfalse
      cases t with
      | zero =>
          rcases (List.mem_cons).mp hp with h | h
          · rw [h]
          · exact ih 0 idx p h hfalse
      | succ t' =>
          rcases (List.mem_cons).mp hp with h | h
          · rw [h] at hfalse; simp at hfalse
          · exact ih t' (idx + 1) p h hfalse

/-! Claim theorems. -/

/-- C10: every room produced by the demo-mode generator satisfies
`current_occupancy ≤ capacity`, whatever the environmental override and
random draws — the generated occupancy is clamped to the capacity by the
`Math.min` in `generateMockRoomData`. -/
theorem mock_room_occupancy_le_capacity (roomId buildingId : String)
    (env : EnvParams) (rnd : RoomRand) (hour : ℕ) :
    (generateMockRoomData roomId buildingId env rnd hour).current_occupancy ≤
      (generateMockRoomData roomId buildingId env rnd hour).capacity := by
  simp only [generateMockRoomData]
  exact min_le_right _ _

/-- C7 counterexample: the string "Use blinds" has trimmed length exactly 10
— not under a 10-character floor — and contains no boilerplate phrase, yet
both UI post-filters drop it, because the source tests
`rec.trim().length > 10`. -/
theorem rec_filter_boundary_cex :
    trimmedLength "Use blinds" = 10 ∧
    includesStr (toLowerCase "Use blinds") "no immediate" = false ∧
    includesStr (toLowerCase "Use blinds") "operating efficiently" = false ∧
    includesStr (toLowerCase "Use blinds") "monitor" = false ∧
    keepRecommendation "Use blinds" = false ∧
    keepRecommendationPanel "Use blinds" = false := by decide

/-- C7 (amended): the post-filters keep exactly the strings whose trimmed
length exceeds 10 characters (so a string of length exactly 10 is dropped)
and whose lowercase text avoids the boilerplate needles — "no immediate" and
"operating efficiently" in the room-detail and building-card filter, and
additionally "monitor" (with the longer needle "no immediate actions") in
the recommendation panel, which then shows at most 5 survivors. The filters
are pure functions of the strings, independent of any call outcome. -/
theorem rec_filter_characterization (s : String) (recs : List String) :
    (keepRecommendation s = true ↔
      includesStr (toLowerCase s) "no immediate" = false ∧
      includesStr (toLowerCase s) "operating efficiently" = false ∧
      10 < trimmedLength s) ∧
    (keepRecommendationPanel s = true ↔
      includesStr (toLowerCase s) "no immediate actions" = false ∧
      includesStr (toLowerCase s) "operating efficiently" = false ∧
      includesStr (toLowerCase s) "monitor" = false ∧
      10 < trimmedLength s) ∧
    filterRecommendationsPanel recs = (recs.filter keepRecommendationPanel).take 5 := by
  refine ⟨?_, ?_, rfl⟩ <;>
    simp [keepRecommendation, keepRecommendationPanel, Bool.and_eq_true,
      Bool.not_eq_true', decide_eq_true_eq, and_assoc]

/-- A concrete external-call outcome function used to witness the
Recommender budget claim: even-indexed calls succeed, odd-indexed calls
fail. -/
def demoCall : ℕ → Option (List String) :=
  fun i => if i % 2 = 0 then some ["Reduce HVAC in idle zones"] else none

/-- C9: with `budget_level = low` the Recommender never attempts more calls
than the low-tier count, whatever the entity list; with `budget_level = high`
and at most the high-tier count of entities, every entity gets an attempted
call; and any entity whose call was not attempted receives the empty
recommendation list, not an error. -/
theorem recommender_budget (call : ℕ → Option (List String))
    (entities : List String) :
    attemptedCalls (runRecommender .low call entities) ≤
      budget_to_call_count .low ∧
    (entities.length ≤ budget_to_call_count .high →
      attemptedCalls (runRecommender .high call entities) = entities.length) ∧
    ∀ level : BudgetLevel, ∀ p ∈ runRecommender level call entities,
      p.2.2 = false → p.2.1 = [] := by
  refine ⟨?_, ?_, ?_⟩
  · rw [runRecommender, attemptedCalls_recommenderLoop]
    exact min_le_left _ _
  · intro hlen
    rw [runRecommender, attemptedCalls_recommenderLoop]
    exact Nat.min_eq_right hlen
  · intro level p hp
    exact recommenderLoop_unattempted_empty call entities _ 0 p hp

/-- C9 witness: with four entities and a low budget at most 3 calls are
attempted; with two entities and a high budget both are attempted. -/
theorem recommender_budget_witness :
    attemptedCalls (runRecommender .low demoCall ["campus", "sci", "eng", "lib-001"]) ≤
      budget_to_call_count .low ∧
    attemptedCalls (runRecommender .high demoCall ["campus", "sci"]) = 2 := by
  refine ⟨(recommender_budget demoCall _).1, ?_⟩
  exact (recommender_budget demoCall ["campus", "sci"]).2.1 (by decide)

/-- C1 counterexample: a demo-generated room at exactly 70% occupancy
(21 of 30) carries `occupancy_level = "medium"`, not "high" — the generator
classifies with strict inequalities. -/
theorem occupancy_level_boundary_cex :
    (generateMockRoomData "sci-001" "sci" ⟨some 21, none, none, none, none, none⟩
        ⟨1/4, 0, 1/2, 0, 0, 0, 0⟩ 12).current_occupancy = 21 ∧
    (generateMockRoomData "sci-001" "sci" ⟨some 21, none, none, none, none, none⟩
        ⟨1/4, 0, 1/2, 0, 0, 0, 0⟩ 12).capacity = 30 ∧
    (7 : ℚ) / 10 ≤ (21 : ℚ) / 30 ∧
    (generateMockRoomData "sci-001" "sci" ⟨some 21, none, none, none, none, none⟩
        ⟨1/4, 0, 1/2, 0, 0, 0, 0⟩ 12).occupancy_level = "medium" := by
  refine ⟨?_, ?_, by norm_num, ?_⟩ <;>
  · simp only [generateMockRoomData, orElseInt]
    first
    | rw [show ((1 : ℚ)/4) * 40 = ((10 : ℤ) : ℚ) by norm_num, Int.floor_intCast,
        show ((1 : ℚ)/2) * 10 - 5 = ((0 : ℤ) : ℚ) by norm_num, Int.floor_intCast]
    | rw [show ((1 : ℚ)/4) * 40 = ((10 : ℤ) : ℚ) by norm_num, Int.floor_intCast]
    norm_num [mockOccupancyLevel]

/-- C1 (amended): for positive capacity, the room-list view helper
`getOccupancyLevel` classifies with inclusive thresholds — "high" iff
ratio ≥ 0.70 (so exactly 0.70 is "high"), "medium" iff 0.30 ≤ ratio < 0.70
(so exactly 0.30 is "medium"), "low" otherwise — while the demo generator
`occupancy_level` uses strict thresholds: "high" iff ratio > 0.70, "medium"
iff 0.30 < ratio ≤ 0.70, and "low" iff ratio ≤ 0.30. -/
theorem occupancy_level_thresholds (occ cap : ℚ) (hcap : 0 < cap) :
    (getOccupancyLevel occ cap = "high" ↔ 7/10 ≤ occ / cap) ∧
    (getOccupancyLevel occ cap = "medium" ↔
      3/10 ≤ occ / cap ∧ occ / cap < 7/10) ∧
    (getOccupancyLevel occ cap = "low" ↔ occ / cap < 3/10) ∧
    (mockOccupancyLevel (occ / cap * 100) = "high" ↔ 7/10 < occ / cap) ∧
    (mockOccupancyLevel (occ / cap * 100) = "medium" ↔
      3/10 < occ / cap ∧ occ / cap ≤ 7/10) ∧
    (mockOccupancyLevel (occ / cap * 100) = "low" ↔ occ / cap ≤ 3/10) := by
  have hne : cap ≠ 0 := ne_of_gt hcap
  unfold getOccupancyLevel mockOccupancyLevel
  rw [if_neg hne]
  simp only [ge_iff_le]
  refine ⟨?_, ?_, ?_, ?_, ?_, ?_⟩ <;>
    split_ifs with h1 h2 <;>
      first
      | (simp only [eq_self_iff_true, true_iff]
         first
         | linarith
         | constructor <;> linarith)
      | (constructor
         · intro hS; exact absurd hS (by decide)
         · intro hP; linarith)

/-- C1 witness: at ratio 21/30 = 0.70 the view classifier says "high" while
the generator classifier says "medium". -/
theorem occupancy_level_thresholds_witness :
    getOccupancyLevel 21 30 = "high" ∧
    mockOccupancyLevel ((21 : ℚ) / 30 * 100) = "medium" := by
  have h := occupancy_level_thresholds 21 30 (by norm_num)
  exact ⟨h.1.mpr (by norm_num), h.2.2.2.2.1.mpr (by norm_num)⟩

/-- Sample room matching the end-to-end scenario of the spec: capacity 30,
occupancy 25. -/
def sampleRoomA : RoomData :=
  ⟨"sci-001", 25, 30, "high", 7, 2, 733, [], [], 10⟩

/-- Sample room matching the end-to-end scenario of the spec: capacity 40,
occupancy 5. -/
def sampleRoomB : RoomData :=
  ⟨"sci-002", 5, 40, "low", 3, 1, 450, [], [], 10⟩

/-- Sample room with a nonzero water estimate, used to exhibit that water is
not aggregated. -/
def sampleRoomW : RoomData :=
  ⟨"lib-001", 5, 10, "medium", 1, 2, 500, [], [], 10⟩

/-- C2 counterexample: the reported campus `total_water_lph` is an
independent random draw, not the sum of the room water estimates — with
draw 0 it is 100 while the single room estimate sums to 2. -/
theorem building_water_not_summed_cex :
    (generateMockCampusAnalysis [buildingRollup "lib" [sampleRoomW]]
        0).campus_metrics.total_water_lph = 100 ∧
    (([sampleRoomW].map fun r => r.estimated_water_lph).sum = (2 : ℚ)) ∧
    (100 : ℚ) ≠ 2 := by
  refine ⟨?_, by simp [sampleRoomW], by norm_num⟩
  simp only [generateMockCampusAnalysis]
  rw [show ((0 : ℚ) * 150 + 100) = ((100 : ℤ) : ℚ) by norm_num,
    round1_eq _ 1000 (by norm_num) (by norm_num)]
  norm_num

/-- C2 (amended): the building rollup computes `total_energy_kw` as the
rounded sum of the room energy estimates, `total_occupancy` and
`total_capacity` as sums, and `occupancy_rate` as Σocc/Σcap × 100 (rounded
to one decimal), 0 when the total capacity is 0; rooms with capacities 30
and 40 and occupancies 25 and 5 give rate 30/70 × 100 ≈ 42.9. No water
total is aggregated (the reported campus water is an independent draw, see
the counterexample). -/
theorem building_rollup_sums (bid : String) (rooms : List RoomData) :
    (buildingRollup bid rooms).total_energy_kw =
      round2 ((rooms.map fun r => r.estimated_energy_kw).sum) ∧
    (buildingRollup bid rooms).total_occupancy =
      (rooms.map fun r => r.current_occupancy).sum ∧
    (buildingRollup bid rooms).total_capacity =
      (rooms.map fun r => r.capacity).sum ∧
    (buildingRollup bid rooms).occupancy_rate =
      round1 (if 0 < (rooms.map fun r => r.capacity).sum then
        (((rooms.map fun r => r.current_occupancy).sum : ℤ) : ℚ) /
          (((rooms.map fun r => r.capacity).sum : ℤ) : ℚ) * 100
        else 0) ∧
    (buildingRollup "sci" [sampleRoomA, sampleRoomB]).occupancy_rate = 429/10 := by
  refine ⟨?_, ?_, ?_, ?_, ?_⟩
  · simp only [buildingRollup]
    rw [foldl_add_eq (fun r : RoomData => r.estimated_energy_kw), zero_add]
  · simp only [buildingRollup]
    rw [foldl_add_eq (fun r : RoomData => r.current_occupancy), zero_add]
  · simp only [buildingRollup]
    rw [foldl_add_eq (fun r : RoomData => r.capacity), zero_add]
  · simp only [buildingRollup]
    rw [foldl_add_eq (fun r : RoomData => r.current_occupancy), zero_add,
      foldl_add_eq (fun r : RoomData => r.capacity), zero_add]
  · simp only [buildingRollup, sampleRoomA, sampleRoomB, List.foldl]
    norm_num
    rw [round1_eq _ 429 (by norm_num) (by norm_num)]
    norm_num

/-- A high-energy building at 100% occupancy. -/
def hotBuilding : BuildingData :=
  ⟨"sci", "Science Hall", 1, 60, 100, 100, 100, 60, []⟩

/-- C3 counterexample: a building with `total_energy_kw = 60` and
`occupancy_rate = 100` — high energy AND high occupancy — is still flagged
in `critical_buildings`: the source filter tests only
`b.total_energy_kw > 50` and never reads the occupancy rate. -/
theorem critical_high_occupancy_cex :
    hotBuilding.occupancy_rate = 100 ∧
    (generateMockCampusAnalysis [hotBuilding] 0).critical_buildings =
      [⟨"sci", "Science Hall", 60, 100, "High energy consumption"⟩] := by
  refine ⟨rfl, ?_⟩
  simp only [generateMockCampusAnalysis, hotBuilding, List.filter_cons]
  norm_num

/-- C3 (amended): a building appears in `critical_buildings` iff its
`total_energy_kw` exceeds the fixed threshold 50, regardless of its
occupancy rate; the entry reason is always "High energy consumption". -/
theorem critical_iff_energy (buildings : List BuildingData) (waterR : ℚ)
    (b : BuildingData) (hb : b ∈ buildings) :
    50 < b.total_energy_kw ↔
      (⟨b.building_id, b.building_name, b.total_energy_kw, b.occupancy_rate,
        "High energy consumption"⟩ : CriticalBuilding) ∈
        (generateMockCampusAnalysis buildings waterR).critical_buildings := by
  simp only [generateMockCampusAnalysis]
  constructor
  · intro h
    exact List.mem_map.mpr
      ⟨b, List.mem_filter.mpr ⟨hb, by simpa using h⟩, rfl⟩
  · intro h
    rcases List.mem_map.mp h with ⟨b', hb', he⟩
    have hen : b'.total_energy_kw = b.total_energy_kw :=
      congrArg CriticalBuilding.energy_kw he
    have hp := (List.mem_filter.mp hb').2
    rw [hen] at hp
    simpa using hp

/-- C3 witness: the high-occupancy, high-energy sample building trips the
criterion. -/
theorem critical_iff_energy_witness :
    50 < hotBuilding.total_energy_kw ↔
      (⟨hotBuilding.building_id, hotBuilding.building_name,
        hotBuilding.total_energy_kw, hotBuilding.occupancy_rate,
        "High energy consumption"⟩ : CriticalBuilding) ∈
        (generateMockCampusAnalysis [hotBuilding] 0).critical_buildings :=
  critical_iff_energy [hotBuilding] 0 hotBuilding (by simp)

/-- A small half-occupied building: occupancy 1 of capacity 2, rate 50%. -/
def halfBuilding : BuildingData :=
  ⟨"lib", "Central Library", 1, 10, 1, 2, 50, 10, []⟩

/-- A large fully occupied building: occupancy 100 of capacity 100,
rate 100%. -/
def fullBuilding : BuildingData :=
  ⟨"sci", "Science Hall", 1, 10, 100, 100, 100, 10, []⟩

/-- C4 counterexample: for a campus of a half-occupied 2-seat building and a
full 100-seat building, the reported campus `occupancy_rate` is 75 (the
unweighted mean of the two building rates), while total occupancy over
total capacity is 101/102 × 100 ≈ 99.0 — the campus rollup does not repeat
the building-level occupancy reduction. -/
theorem campus_rate_not_ratio_cex :
    (generateMockCampusAnalysis [halfBuilding, fullBuilding]
        0).campus_metrics.total_occupancy = 101 ∧
    (generateMockCampusAnalysis [halfBuilding, fullBuilding]
        0).campus_metrics.total_capacity = 102 ∧
    round1 ((101 : ℚ) / 102 * 100) = 99 ∧
    (generateMockCampusAnalysis [halfBuilding, fullBuilding]
        0).campus_metrics.occupancy_rate = 75 ∧
    (75 : ℚ) ≠ 99 := by
  refine ⟨?_, ?_, ?_, ?_, by norm_num⟩
  · simp only [generateMockCampusAnalysis, halfBuilding, fullBuilding, List.foldl]
    norm_num
  · simp only [generateMockCampusAnalysis, halfBuilding, fullBuilding, List.foldl]
    norm_num
  · rw [round1_eq _ 990 (by norm_num) (by norm_num)]; norm_num
  · simp only [generateMockCampusAnalysis, halfBuilding, fullBuilding, List.foldl,
      List.length_cons, List.length_nil]
    rw [show ((0 : ℚ) + 50 + 100) / ((0 + 1 + 1 : ℕ) : ℚ) = ((75 : ℤ) : ℚ) by norm_num,
      round1_eq _ 750 (by norm_num) (by norm_num)]
    norm_num

/-- C4 (amended): campus totals (energy, occupancy, capacity) are sums over
the buildings, and the hourly cost estimate is the fixed-price linear
combination `round2(total_energy × 0.12 + total_water × 0.002)` — but the
campus `occupancy_rate` is the unweighted average of the building rates
(sum of building rates over the number of buildings), not total occupancy
over total capacity, and `total_water_lph` is an independent random draw
`round1(waterR × 150 + 100)`, not a sum. -/
theorem campus_rollup_formulas (buildings : List BuildingData) (waterR : ℚ) :
    (generateMockCampusAnalysis buildings waterR).campus_metrics.total_energy_kw =
      round2 ((buildings.map fun b => b.total_energy_kw).sum) ∧
    (generateMockCampusAnalysis buildings waterR).campus_metrics.total_occupancy =
      (buildings.map fun b => b.total_occupancy).sum ∧
    (generateMockCampusAnalysis buildings waterR).campus_metrics.total_capacity =
      (buildings.map fun b => b.total_capacity).sum ∧
    (generateMockCampusAnalysis buildings waterR).campus_metrics.occupancy_rate =
      round1 ((buildings.map fun b => b.occupancy_rate).sum /
        (buildings.length : ℚ)) ∧
    (generateMockCampusAnalysis buildings waterR).campus_metrics.total_water_lph =
      round1 (waterR * 150 + 100) ∧
    (generateMockCampusAnalysis buildings waterR).campus_metrics.estimated_cost_per_hour =
      round2 ((buildings.map fun b => b.total_energy_kw).sum * 0.12 +
        (generateMockCampusAnalysis buildings waterR).campus_metrics.total_water_lph *
          0.002) := by
  refine ⟨?_, ?_, ?_, ?_, rfl, ?_⟩
  · simp only [generateMockCampusAnalysis]
    rw [foldl_add_eq (fun b : BuildingData => b.total_energy_kw), zero_add]
  · simp only [generateMockCampusAnalysis]
    rw [foldl_add_eq (fun b : BuildingData => b.total_occupancy), zero_add]
  · simp only [generateMockCampusAnalysis]
    rw [foldl_add_eq (fun b : BuildingData => b.total_capacity), zero_add]
  · simp only [generateMockCampusAnalysis]
    rw [foldl_add_eq (fun b : BuildingData => b.occupancy_rate), zero_add]
  · simp only [generateMockCampusAnalysis]
    rw [foldl_add_eq (fun b : BuildingData => b.total_energy_kw), zero_add]

/-- Permutation invariance of the `foldl` reductions used by the rollups. -/
lemma foldl_add_perm {α M : Type*} [AddCommMonoid M] (g : α → M)
    {l₁ l₂ : List α} (h : l₁.Perm l₂) :
    l₁.foldl (fun a r => a + g r) 0 = l₂.foldl (fun a r => a + g r) 0 := by
  rw [foldl_add_eq, foldl_add_eq, (h.map g).sum_eq]

/-- C5: aggregation is order-invariant — permuting the room list leaves
every building-rollup total and the occupancy rate unchanged, and permuting
the building list leaves every campus total, the occupancy rate and the
cost estimate unchanged, because the rollup reductions are sums. -/
theorem aggregation_order_invariant (bid : String)
    (rooms₁ rooms₂ : List RoomData) (hr : rooms₁.Perm rooms₂)
    (bs₁ bs₂ : List BuildingData) (hb : bs₁.Perm bs₂) (waterR : ℚ) :
    (buildingRollup bid rooms₁).total_energy_kw =
      (buildingRollup bid rooms₂).total_energy_kw ∧
    (buildingRollup bid rooms₁).total_occupancy =
      (buildingRollup bid rooms₂).total_occupancy ∧
    (buildingRollup bid rooms₁).total_capacity =
      (buildingRollup bid rooms₂).total_capacity ∧
    (buildingRollup bid rooms₁).occupancy_rate =
      (buildingRollup bid rooms₂).occupancy_rate ∧
    (generateMockCampusAnalysis bs₁ waterR).campus_metrics.total_energy_kw =
      (generateMockCampusAnalysis bs₂ waterR).campus_metrics.total_energy_kw ∧
    (generateMockCampusAnalysis bs₁ waterR).campus_metrics.total_occupancy =
      (generateMockCampusAnalysis bs₂ waterR).campus_metrics.total_occupancy ∧
    (generateMockCampusAnalysis bs₁ waterR).campus_metrics.total_capacity =
      (generateMockCampusAnalysis bs₂ waterR).campus_metrics.total_capacity ∧
    (generateMockCampusAnalysis bs₁ waterR).campus_metrics.occupancy_rate =
      (generateMockCampusAnalysis bs₂ waterR).campus_metrics.occupancy_rate ∧
    (generateMockCampusAnalysis bs₁ waterR).campus_metrics.estimated_cost_per_hour =
      (generateMockCampusAnalysis bs₂ waterR).campus_metrics.estimated_cost_per_hour := by
  have hOcc := foldl_add_perm (fun r : RoomData => r.current_occupancy) hr
  have hCap := foldl_add_perm (fun r : RoomData => r.capacity) hr
  have hEn := foldl_add_perm (fun r : RoomData => r.estimated_energy_kw) hr
  have hbEn := foldl_add_perm (fun b : BuildingData => b.total_energy_kw) hb
  have hbOcc := foldl_add_perm (fun b : BuildingData => b.total_occupancy) hb
  have hbCap := foldl_add_perm (fun b : BuildingData => b.total_capacity) hb
  have hbRate := foldl_add_perm (fun b : BuildingData => b.occupancy_rate) hb
  have hbLen := hb.length_eq
  simp only [buildingRollup, generateMockCampusAnalysis]
  rw [hOcc, hCap, hEn, hbEn, hbOcc, hbCap, hbRate, hbLen]
  exact ⟨rfl, rfl, rfl, rfl, rfl, rfl, rfl, rfl, rfl⟩

/-- C5 witness: swapping two concrete rooms and two concrete buildings
leaves the building and campus energy totals unchanged. -/
theorem aggregation_order_invariant_witness :
    (buildingRollup "sci" [sampleRoomA, sampleRoomB]).total_energy_kw =
      (buildingRollup "sci" [sampleRoomB, sampleRoomA]).total_energy_kw ∧
    (generateMockCampusAnalysis [halfBuilding, fullBuilding]
        0).campus_metrics.total_energy_kw =
      (generateMockCampusAnalysis [fullBuilding, halfBuilding]
        0).campus_metrics.total_energy_kw := by
  have h := aggregation_order_invariant "sci"
    [sampleRoomA, sampleRoomB] [sampleRoomB, sampleRoomA]
    (List.Perm.swap sampleRoomB sampleRoomA [])
    [halfBuilding, fullBuilding] [fullBuilding, halfBuilding]
    (List.Perm.swap fullBuilding halfBuilding []) 0
  exact ⟨h.1, h.2.2.2.2.1⟩

/-- C6 counterexample: two rooms generated from identical occupancy,
equipment and random inputs — differing only in `building_id` ("lib" vs
"sci") — get different energy estimates (1.33 vs 4.27 kW): the base load is
keyed by the building, not by a room type (the generator never reads one). -/
theorem energy_base_by_building_cex :
    (generateMockRoomData "x-001" "lib" ⟨some 10, none, none, none, none, none⟩
        ⟨1/4, 0, 1/2, 1/2, 0, 0, 0⟩ 12).current_occupancy =
      (generateMockRoomData "x-001" "sci" ⟨some 10, none, none, none, none, none⟩
        ⟨1/4, 0, 1/2, 1/2, 0, 0, 0⟩ 12).current_occupancy ∧
    (generateMockRoomData "x-001" "lib" ⟨some 10, none, none, none, none, none⟩
        ⟨1/4, 0, 1/2, 1/2, 0, 0, 0⟩ 12).capacity =
      (generateMockRoomData "x-001" "sci" ⟨some 10, none, none, none, none, none⟩
        ⟨1/4, 0, 1/2, 1/2, 0, 0, 0⟩ 12).capacity ∧
    (generateMockRoomData "x-001" "lib" ⟨some 10, none, none, none, none, none⟩
        ⟨1/4, 0, 1/2, 1/2, 0, 0, 0⟩ 12).estimated_energy_kw = 133/100 ∧
    (generateMockRoomData "x-001" "sci" ⟨some 10, none, none, none, none, none⟩
        ⟨1/4, 0, 1/2, 1/2, 0, 0, 0⟩ 12).estimated_energy_kw = 427/100 := by
  refine ⟨rfl, rfl, ?_, ?_⟩
  · simp only [generateMockRoomData, orElseInt, energyMultiplier, baseEnergy]
    rw [show ((1 : ℚ)/4) * 40 = ((10 : ℤ) : ℚ) by norm_num, Int.floor_intCast,
      show ((1 : ℚ)/2) * 10 - 5 = ((0 : ℤ) : ℚ) by norm_num, Int.floor_intCast]
    norm_num
    simp
    rw [round2_eq _ 133 (by norm_num) (by norm_num)]
    norm_num
  · simp only [generateMockRoomData, orElseInt, energyMultiplier, baseEnergy]
    rw [show ((1 : ℚ)/4) * 40 = ((10 : ℤ) : ℚ) by norm_num, Int.floor_intCast,
      show ((1 : ℚ)/2) * 10 - 5 = ((0 : ℤ) : ℚ) by norm_num, Int.floor_intCast]
    norm_num
    simp
    rw [round2_eq _ 427 (by norm_num) (by norm_num)]
    norm_num

/-- C6 (amended): the generated `estimated_energy_kw` equals (rounded to two
decimals) `baseEnergy(building_id)` times an intensity factor that starts at
`0.3 + 0.7 × occupancy_ratio` and is multiplied by 0.6 when AC is reported
off, 0.7 when lights are reported off, 1.1 when fans are on and
`(1 + 0.05 × count)` for running computers, times the demo-mode jitter term
`0.8 + 0.4 × jitter draw`; the estimate is a deterministic function of these
inputs, with the base load keyed by the building rather than a room type. -/
theorem energy_model (roomId buildingId : String) (env : EnvParams)
    (rnd : RoomRand) (hour : ℕ) :
    (generateMockRoomData roomId buildingId env rnd hour).estimated_energy_kw =
      round2 (baseEnergy buildingId *
        ((0.3 + 0.7 *
            (((generateMockRoomData roomId buildingId env rnd hour).current_occupancy : ℚ) /
              ((generateMockRoomData roomId buildingId env rnd hour).capacity : ℚ))) *
          (if env.ac_on = some false then 0.6 else 1) *
          (if env.lights_on = some false then 0.7 else 1) *
          (if env.fans_on = some true then 1.1 else 1) *
          (match env.computers_count with
            | some c => if 0 < c then 1 + 0.05 * (c : ℚ) else 1
            | none => 1)) *
        (0.8 + 0.4 * rnd.jitterR)) := by
  simp only [generateMockRoomData, energyMultiplier]
  refine congrArg round2 ?_
  rcases env.computers_count with _ | c <;>
    · simp only []
      split_ifs <;> ring

/-- C8: the demo generator can produce a negative `current_occupancy` — with
an environmental average of 1 and the random offset draw at its low end
(`Math.floor(0 × 10 − 5) = −5`) the occupancy is `min(1 − 5, 20) = −4`.
The generator clamps from above with `Math.min` but never from below at 0. -/
theorem negative_occupancy_bug :
    (generateMockRoomData "lib-001" "lib" ⟨some 1, none, none, none, none, none⟩
        ⟨0, 0, 0, 0, 0, 0, 0⟩ 12).current_occupancy = -4 ∧
    (generateMockRoomData "lib-001" "lib" ⟨some 1, none, none, none, none, none⟩
        ⟨0, 0, 0, 0, 0, 0, 0⟩ 12).current_occupancy < 0 := by
  have h : (generateMockRoomData "lib-001" "lib"
      ⟨some 1, none, none, none, none, none⟩
      ⟨0, 0, 0, 0, 0, 0, 0⟩ 12).current_occupancy = -4 := by
    simp only [generateMockRoomData, orElseInt]
    rw [show ((0 : ℚ)) * 40 = ((0 : ℤ) : ℚ) by norm_num, Int.floor_intCast,
      show ((0 : ℚ)) * 10 - 5 = ((-5 : ℤ) : ℚ) by norm_num, Int.floor_intCast]
    norm_num
  exact ⟨h, by rw [h]; norm_num⟩

end EcoAgent
